import Mathlib

/-!
Shallow embedding of the session/room orchestration layer of the ils-backend
live-streaming server: `MediaService` (src/src/services/MediaService.js),
`StreamService` (the stream orchestrator), the cache collaborator and the
event-bus collaborator (`MessageQueue`).

JavaScript `Map` objects (insertion-ordered, unique keys) are embedded as
association lists with `mget` / `mset` / `mdel` mirroring `Map.get`,
`Map.set` (update in place, else append) and `Map.delete`.
-/

namespace ILS

/-- Decidable equality for `Except`, so concrete runs of the fallible
operations can be checked by `decide`. -/
instance instDecEqExcept {ε α : Type} [DecidableEq ε] [DecidableEq α] :
    DecidableEq (Except ε α)
  | .error e, .error f =>
      if h : e = f then .isTrue (h ▸ rfl)
      else .isFalse (fun hc => h (Except.error.inj hc))
  | .error _, .ok _ => .isFalse (fun hc => Except.noConfusion hc)
  | .ok _, .error _ => .isFalse (fun hc => Except.noConfusion hc)
  | .ok a, .ok b =>
      if h : a = b then .isTrue (h ▸ rfl)
      else .isFalse (fun hc => h (Except.ok.inj hc))

/-- Association-list lookup, mirroring JS `Map.get`. -/
def mget {α : Type} (m : List (String × α)) (k : String) : Option α :=
  match m with
  | [] => none
  | (k1, v) :: rest => if k1 = k then some v else mget rest k

/-- Association-list insert/update, mirroring JS `Map.set`: replaces the value
in place when the key is present, otherwise appends at the end. -/
def mset {α : Type} (m : List (String × α)) (k : String) (v : α) :
    List (String × α) :=
  match m with
  | [] => [(k, v)]
  | (k1, v1) :: rest =>
      if k1 = k then (k, v) :: rest else (k1, v1) :: mset rest k v

/-- Association-list removal, mirroring JS `Map.delete` (keys of a JS Map are
unique, so removing every binding of `k` coincides with removing the one). -/
def mdel {α : Type} (m : List (String × α)) (k : String) :
    List (String × α) :=
  m.filter (fun kv => kv.1 ≠ k)

@[simp] theorem mget_nil {α : Type} (k : String) :
    mget ([] : List (String × α)) k = none := rfl

@[simp] theorem mget_cons {α : Type} (k1 k : String) (v : α)
    (rest : List (String × α)) :
    mget ((k1, v) :: rest) k = if k1 = k then some v else mget rest k := rfl

theorem mget_mset_self {α : Type} (m : List (String × α)) (k : String)
    (v : α) : mget (mset m k v) k = some v := by
  induction m with
  | nil => simp [mset]
  | cons hd tl ih =>
      obtain ⟨k1, v1⟩ := hd
      by_cases h : k1 = k
      · simp [mset, h]
      · simp [mset, h, ih]

theorem mget_mset_ne {α : Type} (m : List (String × α)) (k k2 : String)
    (v : α) (h : k ≠ k2) : mget (mset m k v) k2 = mget m k2 := by
  induction m with
  | nil => simp [mset, h]
  | cons hd tl ih =>
      obtain ⟨k1, v1⟩ := hd
      by_cases h1 : k1 = k
      · subst h1
        simp [mset, h]
      · simp [mset, h1, ih]

theorem mget_mdel_self {α : Type} (m : List (String × α)) (k : String) :
    mget (mdel m k) k = none := by
  induction m with
  | nil => rfl
  | cons hd tl ih =>
      obtain ⟨k1, v1⟩ := hd
      by_cases h : k1 = k
      · simpa [mdel, h] using ih
      · simpa [mdel, h] using ih

theorem mdel_cons {α : Type} (k1 k : String) (v1 : α)
    (tl : List (String × α)) :
    mdel ((k1, v1) :: tl) k
      = if k1 = k then mdel tl k else (k1, v1) :: mdel tl k := by
  by_cases h : k1 = k <;> simp [mdel, h]

theorem mget_mdel_ne {α : Type} (m : List (String × α)) (k k2 : String)
    (h : k ≠ k2) : mget (mdel m k) k2 = mget m k2 := by
  induction m with
  | nil => rfl
  | cons hd tl ih =>
      obtain ⟨k1, v1⟩ := hd
      rw [mdel_cons]
      by_cases h1 : k1 = k
      · rw [if_pos h1, ih, mget_cons,
          if_neg (by rw [h1]; exact h : ¬k1 = k2)]
      · rw [if_neg h1, mget_cons, mget_cons, ih]

/-- If a lookup in a filtered association list succeeds, the found binding
satisfies the filter predicate. -/
theorem mget_filter {α : Type} (p : String × α → Bool)
    (m : List (String × α)) (k : String) (v : α)
    (h : mget (m.filter p) k = some v) : p (k, v) = true := by
  induction m with
  | nil => simp [mget] at h
  | cons hd tl ih =>
      obtain ⟨k1, v1⟩ := hd
      by_cases hp : p (k1, v1)
      · rw [List.filter_cons_of_pos hp] at h
        rw [mget_cons] at h
        by_cases hk : k1 = k
        · subst hk
          simp at h
          subst h
          exact hp
        · rw [if_neg hk] at h
          exact ih h
      · rw [List.filter_cons_of_neg (by simpa using hp)] at h
        exact ih h

/-- Lookup through a value-map over an association list. -/
theorem mget_map {α β : Type} (f : String → α → β)
    (m : List (String × α)) (k : String) :
    mget (m.map (fun kv => (kv.1, f kv.1 kv.2))) k
      = (mget m k).map (f k) := by
  induction m with
  | nil => rfl
  | cons hd tl ih =>
      obtain ⟨k1, v1⟩ := hd
      by_cases h : k1 = k
      · subst h
        simp [mget]
      · simp [mget, h, ih]

end ILS

namespace ILS

/-! ## Media data model (MediaService.js) -/

/-- A WebRTC transport as stored in a participant's `transports` map.
`direction` is placed in `appData` at creation and never mutated. -/
structure Transport where
  id : String
  userId : String
  direction : String
  connected : Bool
  deriving Repr, DecidableEq

/-- A producer as stored in a participant's `producers` map. `transportId`
records which transport the producer was created on (the closure captured by
its `transportclose` handler). -/
structure Producer where
  id : String
  userId : String
  kind : String
  transportId : String
  deriving Repr, DecidableEq

/-- A consumer as stored in a participant's `consumers` map. `transportId` is
the recv transport it was created on; `producerId` the source producer
(`appData` in the source). Created paused. -/
structure Consumer where
  id : String
  userId : String
  producerId : String
  transportId : String
  paused : Bool
  deriving Repr, DecidableEq

/-- Per-user state within a room (MediaService participant object). -/
structure Participant where
  id : String
  transports : List (String × Transport)
  producers : List (String × Producer)
  consumers : List (String × Consumer)
  joinedAt : Nat
  deriving Repr, DecidableEq

/-- A room: routing context (`routerId` names the mediasoup router), the
participant map, and the index recorded by `this.workers.indexOf(worker)`
(an `Int` because JS `indexOf` yields -1 on a missing element). -/
structure Room where
  id : String
  routerId : Nat
  participants : List (String × Participant)
  createdAt : Nat
  workerIndex : Int
  deriving Repr, DecidableEq

/-- State of `MediaService`: the worker pool (each worker named by its id),
the round-robin cursor `workerIndex`, the room registry, a fresh-id counter
standing in for the media engine's id generation, the number of routing
contexts ever created, and the routers closed so far. -/
structure MediaState where
  workers : List Nat
  workerIndex : Nat
  rooms : List (String × Room)
  nextId : Nat
  routersCreated : Nat
  closedRouters : List Nat
  now : Nat
  deriving Repr, DecidableEq

/-- JS `Array.prototype.indexOf` on the worker array: first index holding the
value, -1 if absent. -/
def idxOf (w : Nat) : List Nat → Int
  | [] => -1
  | x :: xs =>
      if x = w then 0
      else
        let r := idxOf w xs
        if r = -1 then -1 else r + 1

/-- `getNextWorker`: `workers[workerIndex]`, then advance the cursor
round-robin. `none` models the JS `undefined` when the pool is empty or the
cursor is out of range. -/
def getNextWorker (s : MediaState) : Option (Nat × MediaState) :=
  match s.workers[s.workerIndex]? with
  | none => none
  | some w =>
      some (w, { s with workerIndex := (s.workerIndex + 1) % s.workers.length })

/-- `createRoom(roomId)`: return the room unchanged if registered, otherwise
acquire the next worker round-robin, create a routing context with the fixed
codec set, and register the room. -/
def createRoomM (s : MediaState) (roomId : String) :
    Except String (Room × MediaState) :=
  match mget s.rooms roomId with
  | some room => .ok (room, s)
  | none =>
      match getNextWorker s with
      | none => .error "No workers available"
      | some (w, s1) =>
          let room : Room :=
            { id := roomId
              routerId := s1.nextId
              participants := []
              createdAt := s1.now
              workerIndex := idxOf w s1.workers }
          let s2 : MediaState :=
            { s1 with
                rooms := mset s1.rooms roomId room
                nextId := s1.nextId + 1
                routersCreated := s1.routersCreated + 1 }
          .ok (room, s2)

/-- Connection parameters returned by `createWebRtcTransport`. -/
structure TransportInfo where
  id : String
  deriving Repr, DecidableEq

/-- The fresh transport id the media engine will hand out next. -/
def freshTid (s : MediaState) : String := "t" ++ toString s.nextId

/-- `createWebRtcTransport(roomId, userId, direction)`: lazily create the
room, create a transport on its router, lazily create the participant, and
register the transport under the participant. -/
def createWebRtcTransport (s : MediaState) (roomId userId direction : String) :
    Except String (TransportInfo × MediaState) :=
  match createRoomM s roomId with
  | .error e => .error e
  | .ok (room, s1) =>
      let tid := freshTid s1
      let transport : Transport :=
        { id := tid, userId := userId, direction := direction,
          connected := false }
      let participant : Participant :=
        match mget room.participants userId with
        | some p => p
        | none =>
            { id := userId, transports := [], producers := [],
              consumers := [], joinedAt := s1.now }
      let participant1 :=
        { participant with
            transports := mset participant.transports tid transport }
      let room1 :=
        { room with
            participants := mset room.participants userId participant1 }
      .ok ({ id := tid },
           { s1 with
               rooms := mset s1.rooms roomId room1
               nextId := s1.nextId + 1 })

/-- `produce(roomId, userId, transportId, kind)`: room, participant and
transport must exist; creates a producer on the transport and registers it
under the participant. -/
def produceM (s : MediaState) (roomId userId transportId kind : String) :
    Except String (Producer × MediaState) :=
  match mget s.rooms roomId with
  | none => .error "Room not found"
  | some room =>
      match mget room.participants userId with
      | none => .error "Participant not found"
      | some participant =>
          match mget participant.transports transportId with
          | none => .error "Transport not found"
          | some _ =>
              let pid := "p" ++ toString s.nextId
              let producer : Producer :=
                { id := pid, userId := userId, kind := kind,
                  transportId := transportId }
              let participant1 :=
                { participant with
                    producers := mset participant.producers pid producer }
              let room1 :=
                { room with
                    participants :=
                      mset room.participants userId participant1 }
              .ok (producer,
                   { s with
                       rooms := mset s.rooms roomId room1
                       nextId := s.nextId + 1 })

/-- The scan in `consume` that locates a producer by id across every
participant of the room, in participant insertion order. -/
def findProducer (parts : List (String × Participant)) (producerId : String) :
    Option Producer :=
  match parts with
  | [] => none
  | (_, p) :: rest =>
      match mget p.producers producerId with
      | some producer => some producer
      | none => findProducer rest producerId

/-- The scan in `consume` that picks the first transport of the participant
whose `appData.direction` is `"recv"`. -/
def findRecvTransport (ts : List (String × Transport)) : Option Transport :=
  match ts with
  | [] => none
  | (_, t) :: rest =>
      if t.direction = "recv" then some t else findRecvTransport rest

/-- Consumer descriptor returned by `consume`. -/
structure ConsumerInfo where
  id : String
  kind : String
  producerId : String
  deriving Repr, DecidableEq

/-- `consume(roomId, userId, producerId, rtpCapabilities)`. `rtpOk` embeds
the media engine's `router.canConsume({producerId, rtpCapabilities})`
verdict for the supplied capabilities. Fails in source order: room,
participant, producer scan, capability check, recv-transport scan; on
success registers a paused consumer under the participant. -/
def consumeM (s : MediaState) (roomId userId producerId : String)
    (rtpOk : Bool) : Except String (ConsumerInfo × MediaState) :=
  match mget s.rooms roomId with
  | none => .error "Room not found"
  | some room =>
      match mget room.participants userId with
      | none => .error "Participant not found"
      | some participant =>
          match findProducer room.participants producerId with
          | none => .error "Producer not found"
          | some producer =>
              if !rtpOk then .error "Cannot consume this producer"
              else
                match findRecvTransport participant.transports with
                | none => .error "No receive transport found"
                | some recvTransport =>
                    let cid := "c" ++ toString s.nextId
                    let consumer : Consumer :=
                      { id := cid, userId := userId,
                        producerId := producerId,
                        transportId := recvTransport.id, paused := true }
                    let participant1 :=
                      { participant with
                          consumers :=
                            mset participant.consumers cid consumer }
                    let room1 :=
                      { room with
                          participants :=
                            mset room.participants userId participant1 }
                    .ok ({ id := cid, kind := producer.kind,
                           producerId := producerId },
                         { s with
                             rooms := mset s.rooms roomId room1
                             nextId := s.nextId + 1 })

/-! ## Close cascades

`produce` registers a `transportclose` handler on each producer (close +
remove from the owner's `producers` map) and `consume` registers
`transportclose` and `producerclose` handlers on each consumer (close +
remove from the owner's `consumers` map). The media engine emits
`transportclose` on every producer/consumer carried by a closing transport
and `producerclose` on every consumer of a closing producer; the cascade
functions below apply those registered handlers. -/

/-- Ids of the producers carried by one of the closing transports (these are
closed by the engine when their parent transport closes). -/
def closedProducerIds (parts : List (String × Participant))
    (tids : List String) : List String :=
  parts.foldr
    (fun kv acc =>
      ((kv.2.producers.filter
          (fun pv => tids.contains pv.2.transportId)).map (·.1)) ++ acc)
    []

/-- Effect on one participant of closing the transports in `tids`: the
registered handlers delete the producers carried by those transports and the
consumers whose parent transport or source producer closed. -/
def cascadeParticipant (tids closedPids : List String) (q : Participant) :
    Participant :=
  { q with
      producers :=
        q.producers.filter (fun pv => !(tids.contains pv.2.transportId))
      consumers :=
        q.consumers.filter
          (fun cv =>
            !(tids.contains cv.2.transportId)
              && !(closedPids.contains cv.2.producerId)) }

/-- `transport.close()` on transport `tid` of room `roomId`: every producer
carried by it closes (and its consumers with it), every consumer carried by
it closes; the registered handlers remove them from their owners' maps. -/
def closeTransportM (s : MediaState) (roomId tid : String) : MediaState :=
  match mget s.rooms roomId with
  | none => s
  | some room =>
      let closedPids := closedProducerIds room.participants [tid]
      let parts1 :=
        room.participants.map
          (fun kv => (kv.1, cascadeParticipant [tid] closedPids kv.2))
      { s with
          rooms := mset s.rooms roomId { room with participants := parts1 } }

/-- `producer.close()` on producer `pid` of room `roomId`: the engine emits
`producerclose` on each of its consumers; the handler registered in
`consume` removes each such consumer from its owner's `consumers` map. -/
def closeProducerM (s : MediaState) (roomId pid : String) : MediaState :=
  match mget s.rooms roomId with
  | none => s
  | some room =>
      let parts1 :=
        room.participants.map
          (fun kv =>
            (kv.1,
             { kv.2 with
                 consumers :=
                   kv.2.consumers.filter
                     (fun cv => !(cv.2.producerId = pid)) }))
      { s with
          rooms := mset s.rooms roomId { room with participants := parts1 } }

/-- The participant map after all of `p`'s transports close (with the
handler cascades of `cascadeParticipant`) and `p` itself is deleted. -/
def cascadeRemove (room : Room) (p : Participant) (userId : String) :
    List (String × Participant) :=
  let tids := p.transports.map (·.2.id)
  let closedPids := closedProducerIds room.participants tids
  mdel
    (room.participants.map
      (fun kv => (kv.1, cascadeParticipant tids closedPids kv.2)))
    userId

/-- `closeParticipant(roomId, userId)`: missing room or participant returns
with no change; otherwise closes every transport of the participant
(cascading per the registered handlers), deletes the participant, and — when
the room is then empty — closes the router and deregisters the room. -/
def closeParticipantM (s : MediaState) (roomId userId : String) :
    MediaState :=
  match mget s.rooms roomId with
  | none => s
  | some room =>
      match mget room.participants userId with
      | none => s
      | some p =>
          let parts2 := cascadeRemove room p userId
          if parts2.length = 0 then
            { s with
                rooms := mdel s.rooms roomId
                closedRouters := s.closedRouters ++ [room.routerId] }
          else
            { s with
                rooms :=
                  mset s.rooms roomId { room with participants := parts2 } }

/-- Sequentially create a batch of rooms (an error leaves the state as is;
with a non-empty pool `createRoomM` never errs). -/
def createRooms (s : MediaState) : List String → MediaState
  | [] => s
  | roomId :: rest =>
      match createRoomM s roomId with
      | .ok (_, s1) => createRooms s1 rest
      | .error _ => createRooms s rest

/-- The worker index recorded on a registered room. -/
def roomWorker (s : MediaState) (roomId : String) : Option Int :=
  (mget s.rooms roomId).map (·.workerIndex)

/-! ## Orchestrator layer (StreamService), cache and event-bus collaborators -/

/-- The live Stream record as stored in the cache (`stream:<id>` hash). -/
structure CacheStream where
  id : String
  userId : String
  title : String
  description : String
  category : String
  isLive : Bool
  isPrivate : Bool
  createdAt : Nat
  startedAt : Option Nat
  endedAt : Option Nat
  duration : Nat
  viewers : Nat
  maxViewers : Nat
  totalViews : Nat
  totalChatMessages : Nat
  chatEnabled : Bool
  recordingEnabled : Bool
  deriving Repr, DecidableEq

/-- Stats kept by the cache collaborator (`getStreamStats`). -/
structure StreamStats where
  viewers : Nat
  views : Nat
  chatMessages : Nat
  maxViewers : Nat
  deriving Repr, DecidableEq

/-- Orchestrator-level state: media state plus the cache, the published
event-bus messages, the persistence writes, logs, and the end-of-stream
grace-window deletions still pending. -/
structure AppState where
  media : MediaState
  cache : List (String × CacheStream)
  stats : List (String × StreamStats)
  events : List (String × String)
  analytics : List (String × String)
  dbWrites : List (String × String)
  logs : List String
  pendingDeletes : List String
  nextStreamId : Nat
  now : Nat
  deriving Repr, DecidableEq

/-- Modelled from the spec: `cacheService.createStream(streamId, stream)` is
invoked by the orchestrator but its body is not among the provided sources;
per §6 the cache collaborator stores the live Stream record keyed by
`streamId`. -/
def cacheCreateStream (s : AppState) (streamId : String)
    (st : CacheStream) : AppState :=
  { s with cache := mset s.cache streamId st }

/-- `cacheService.getStream`. -/
def cacheGetStream (s : AppState) (streamId : String) : Option CacheStream :=
  mget s.cache streamId

/-- `cacheService.updateStream`: writes the given fields into the stream
hash (call sites only update records they have just read, so the
missing-key case cannot arise there). -/
def cacheUpdateStream (s : AppState) (streamId : String)
    (upd : CacheStream → CacheStream) : AppState :=
  match mget s.cache streamId with
  | none => s
  | some st => { s with cache := mset s.cache streamId (upd st) }

/-- `cacheService.deleteStream`: drops the stream hash and its viewer, chat
and stats keys. -/
def cacheDeleteStream (s : AppState) (streamId : String) : AppState :=
  { s with
      cache := mdel s.cache streamId
      stats := mdel s.stats streamId }

/-- `cacheService.getStreamStats` (zeros when nothing is recorded, matching
the `|| 0` defaults at the call sites and the catch branch). -/
def getStreamStats (s : AppState) (streamId : String) : StreamStats :=
  (mget s.stats streamId).getD
    { viewers := 0, views := 0, chatMessages := 0, maxViewers := 0 }

/-- A persistence write, wrapped at each call site in its own try/catch:
when the database fails the error is logged and execution continues. -/
def dbTry (dbFails : Bool) (s : AppState) (op streamId logMsg : String) :
    AppState :=
  if dbFails then { s with logs := s.logs ++ [logMsg] }
  else { s with dbWrites := s.dbWrites ++ [(op, streamId)] }

/-- `MessageQueue.publishStreamEvent`: the publish is wrapped in a try/catch
inside the queue client itself — a failure is logged and swallowed, never
thrown to the caller. -/
def publishStreamEvent (busFails : Bool) (s : AppState)
    (event streamId : String) : AppState :=
  if busFails then
    { s with logs := s.logs ++ ["Error publishing stream event"] }
  else { s with events := s.events ++ [(event, streamId)] }

/-- `MessageQueue.publishAnalyticsEvent`: same internal try/catch policy. -/
def publishAnalyticsEvent (busFails : Bool) (s : AppState)
    (event streamId : String) : AppState :=
  if busFails then
    { s with logs := s.logs ++ ["Error publishing analytics event:"] }
  else { s with analytics := s.analytics ++ [(event, streamId)] }

/-- Client-supplied data for `createStream`. -/
structure StreamData where
  title : String
  description : String
  category : String
  isPrivate : Bool
  chatEnabled : Bool
  recordingEnabled : Bool
  deriving Repr, DecidableEq

/-- `StreamService.createStream(userId, streamData)`: mint a stream id,
create the media room, store the record in cache, persist best-effort,
publish the `create` event. `dbFails` / `busFails` say whether the
persistence and event-bus collaborators fail on this invocation. -/
def createStreamS (dbFails busFails : Bool) (s : AppState) (userId : String)
    (d : StreamData) : Except String (CacheStream × AppState) :=
  let streamId := "s" ++ toString s.nextStreamId
  let s0 := { s with nextStreamId := s.nextStreamId + 1 }
  let stream : CacheStream :=
    { id := streamId, userId := userId, title := d.title,
      description := d.description, category := d.category,
      isLive := false, isPrivate := d.isPrivate, createdAt := s0.now,
      startedAt := none, endedAt := none, duration := 0, viewers := 0,
      maxViewers := 0, totalViews := 0, totalChatMessages := 0,
      chatEnabled := d.chatEnabled, recordingEnabled := d.recordingEnabled }
  match createRoomM s0.media streamId with
  | .error e => .error e
  | .ok (_, m1) =>
      let s1 := { s0 with media := m1 }
      let s2 := cacheCreateStream s1 streamId stream
      let s3 := dbTry dbFails s2 "save" streamId
        "Database save failed, continuing with cache:"
      let s4 := publishStreamEvent busFails s3 "create" streamId
      .ok (stream, s4)

/-- `StreamService.produce`: create the producer, flip the cached record to
live when it exists and is not live yet, persist best-effort
(unconditionally), publish the `started` stream event (unconditionally) and
the `producer.created` analytics event. -/
def produceS (dbFails busFails : Bool) (s : AppState)
    (roomId userId transportId kind : String) :
    Except String (Producer × AppState) :=
  match produceM s.media roomId userId transportId kind with
  | .error e => .error e
  | .ok (producer, m1) =>
      let s1 := { s with media := m1 }
      let s2 :=
        match cacheGetStream s1 roomId with
        | some st =>
            if !st.isLive then
              cacheUpdateStream s1 roomId
                (fun x =>
                  { x with isLive := true, startedAt := some s1.now })
            else s1
        | none => s1
      let s3 := dbTry dbFails s2 "update-live" roomId
        "Database update failed:"
      let s4 := publishStreamEvent busFails s3 "started" roomId
      let s5 := publishAnalyticsEvent busFails s4 "producer.created" roomId
      .ok (producer, s5)

/-- The partial update `endStream` writes and returns. -/
structure StreamUpdate where
  isLive : Bool
  endedAt : Nat
  duration : Nat
  maxViewers : Nat
  totalViews : Nat
  totalChatMessages : Nat
  deriving Repr, DecidableEq

/-- `StreamService.endStream(streamId, userId)`: fails with
`"Stream not found"` when the cache has no record; otherwise closes the
participant, snapshots final stats, writes the end update to cache,
persists best-effort, publishes `ended` and `stream.ended`, and schedules
the grace-window cache deletion (`setTimeout`, 30 s). -/
def endStreamS (dbFails busFails : Bool) (s : AppState)
    (streamId userId : String) :
    Except String (StreamUpdate × AppState) :=
  match mget s.cache streamId with
  | none => .error "Stream not found"
  | some stream =>
      let m1 := closeParticipantM s.media streamId userId
      let s1 := { s with media := m1 }
      let finalStats := getStreamStats s1 streamId
      let upd : StreamUpdate :=
        { isLive := false, endedAt := s1.now,
          duration :=
            match stream.startedAt with
            | some t => s1.now - t
            | none => 0,
          maxViewers := finalStats.maxViewers,
          totalViews := finalStats.views,
          totalChatMessages := finalStats.chatMessages }
      let s2 := cacheUpdateStream s1 streamId
        (fun x =>
          { x with
              isLive := false, endedAt := some upd.endedAt,
              duration := upd.duration, maxViewers := upd.maxViewers,
              totalViews := upd.totalViews,
              totalChatMessages := upd.totalChatMessages })
      let s3 := dbTry dbFails s2 "update-ended" streamId
        "Database update failed:"
      let s4 := publishStreamEvent busFails s3 "ended" streamId
      let s5 := publishAnalyticsEvent busFails s4 "stream.ended" streamId
      let s6 := { s5 with pendingDeletes := s5.pendingDeletes ++ [streamId] }
      .ok (upd, s6)

/-- The grace-window timer firing: the scheduled
`cacheService.deleteStream(streamId)` runs. -/
def fireScheduledDelete (s : AppState) (streamId : String) : AppState :=
  { cacheDeleteStream s streamId with
      pendingDeletes := s.pendingDeletes.filter (fun x => x ≠ streamId) }

/-! ## Concrete sample states -/

/-- A fresh media service with a pool of three workers. -/
def mediaP3 : MediaState :=
  { workers := [0, 1, 2], workerIndex := 0, rooms := [], nextId := 0,
    routersCreated := 0, closedRouters := [], now := 0 }

/-- State after `createRoom("r1")` on the fresh service. -/
def c1State : MediaState :=
  match createRoomM mediaP3 "r1" with
  | .ok (_, s) => s
  | .error _ => mediaP3

def tSendA : Transport :=
  { id := "t0", userId := "a", direction := "send", connected := true }

def prodA : Producer :=
  { id := "p0", userId := "a", kind := "video", transportId := "t0" }

/-- Broadcaster participant: one send transport carrying one producer. -/
def partA : Participant :=
  { id := "a", transports := [("t0", tSendA)],
    producers := [("p0", prodA)], consumers := [], joinedAt := 0 }

/-- Viewer participant with no transports yet. -/
def partU : Participant :=
  { id := "u", transports := [], producers := [], consumers := [],
    joinedAt := 0 }

def pb : Participant :=
  { id := "b", transports := [], producers := [], consumers := [],
    joinedAt := 0 }

def roomAB : Room :=
  { id := "r", routerId := 3, participants := [("a", partA), ("b", pb)],
    createdAt := 0, workerIndex := 0 }

def mediaAB : MediaState :=
  { workers := [0], workerIndex := 0, rooms := [("r", roomAB)], nextId := 5,
    routersCreated := 1, closedRouters := [], now := 0 }

/-- The room left after `a` leaves `mediaAB`. -/
def c1wRoom2 : Room :=
  match mget (closeParticipantM mediaAB "r" "a").rooms "r" with
  | some rm => rm
  | none => roomAB

/-- Two send-direction transports created for the same user in one room. -/
def c4s1 : MediaState :=
  match createWebRtcTransport mediaP3 "r" "u" "send" with
  | .ok (_, s) => s
  | .error _ => mediaP3

def c4s2 : MediaState :=
  match createWebRtcTransport c4s1 "r" "u" "send" with
  | .ok (_, s) => s
  | .error _ => c4s1

def c4Part : Participant :=
  match mget c4s2.rooms "r" with
  | some rm =>
      match mget rm.participants "u" with
      | some q => q
      | none => partU
  | none => partU

/-- Room hosting broadcaster `a` (producing) and viewer `u` (no transport). -/
def room6 : Room :=
  { id := "r", routerId := 0, participants := [("a", partA), ("u", partU)],
    createdAt := 0, workerIndex := 0 }

def media6 : MediaState :=
  { workers := [0], workerIndex := 0, rooms := [("r", room6)], nextId := 7,
    routersCreated := 1, closedRouters := [], now := 0 }

def c6info : TransportInfo :=
  match createWebRtcTransport media6 "r" "u" "recv" with
  | .ok (info, _) => info
  | .error _ => { id := "" }

def c6s2 : MediaState :=
  match createWebRtcTransport media6 "r" "u" "recv" with
  | .ok (_, s) => s
  | .error _ => media6

/-- Viewer with two recv transports and two consumers: `c0` rides transport
`t1` and consumes producer `p0`; `c1` rides `t2` and consumes `p9`. -/
def cons0 : Consumer :=
  { id := "c0", userId := "u", producerId := "p0", transportId := "t1",
    paused := true }

def cons1 : Consumer :=
  { id := "c1", userId := "u", producerId := "p9", transportId := "t2",
    paused := true }

def partU5 : Participant :=
  { id := "u"
    transports :=
      [("t1", { id := "t1", userId := "u", direction := "recv",
                connected := true }),
       ("t2", { id := "t2", userId := "u", direction := "recv",
                connected := true })]
    producers := []
    consumers := [("c0", cons0), ("c1", cons1)]
    joinedAt := 0 }

def room5 : Room :=
  { id := "r", routerId := 0, participants := [("a", partA), ("u", partU5)],
    createdAt := 0, workerIndex := 0 }

def media5 : MediaState :=
  { workers := [0], workerIndex := 0, rooms := [("r", room5)], nextId := 9,
    routersCreated := 1, closedRouters := [], now := 0 }

def c5room2 : Room :=
  match mget (closeTransportM media5 "r" "t1").rooms "r" with
  | some rm => rm
  | none => room5

def c5p2 : Participant :=
  match mget c5room2.participants "u" with
  | some q => q
  | none => partU5

def c5cons : Consumer :=
  match mget c5p2.consumers "c1" with
  | some c => c
  | none => cons0

def c5room2p : Room :=
  match mget (closeProducerM media5 "r" "p0").rooms "r" with
  | some rm => rm
  | none => room5

def c5p2p : Participant :=
  match mget c5room2p.participants "u" with
  | some q => q
  | none => partU5

def c5consp : Consumer :=
  match mget c5p2p.consumers "c1" with
  | some c => c
  | none => cons0

/-- The room and post-state produced by `createRoom("r1")` on `mediaP3`. -/
def c8room : Room :=
  match createRoomM mediaP3 "r1" with
  | .ok (rm, _) => rm
  | .error _ => roomAB

def c8s1 : MediaState :=
  match createRoomM mediaP3 "r1" with
  | .ok (_, s) => s
  | .error _ => mediaP3

/-- A cached stream record that is not yet live. -/
def streamRec : CacheStream :=
  { id := "s1", userId := "u", title := "t", description := "",
    category := "", isLive := false, isPrivate := false, createdAt := 0,
    startedAt := none, endedAt := none, duration := 0, viewers := 0,
    maxViewers := 0, totalViews := 0, totalChatMessages := 0,
    chatEnabled := true, recordingEnabled := false }

/-- Media state where room `s1` has participant `u` with send transport
`t1` (built by the service itself). -/
def mediaS1 : MediaState :=
  match createWebRtcTransport mediaP3 "s1" "u" "send" with
  | .ok (_, s) => s
  | .error _ => mediaP3

/-- App state: stream `s1` registered but not live, broadcaster connected. -/
def app3 : AppState :=
  { media := mediaS1, cache := [("s1", streamRec)], stats := [],
    events := [], analytics := [], dbWrites := [], logs := [],
    pendingDeletes := [], nextStreamId := 0, now := 100 }

def c3App1 : AppState :=
  match produceS false false app3 "s1" "u" "t1" "video" with
  | .ok (_, s2) => s2
  | .error _ => app3

def c3App2 : AppState :=
  match produceS false false c3App1 "s1" "u" "t1" "video" with
  | .ok (_, s2) => s2
  | .error _ => c3App1

/-- App state: stream `s1` live, broadcaster connected. -/
def c2App : AppState :=
  { media := mediaS1,
    cache := [("s1", { streamRec with isLive := true, startedAt := some 10 })],
    stats := [], events := [], analytics := [], dbWrites := [], logs := [],
    pendingDeletes := [], nextStreamId := 0, now := 100 }

def c2App1 : AppState :=
  match endStreamS false false c2App "s1" "u" with
  | .ok (_, s2) => s2
  | .error _ => c2App

def c4info1 : TransportInfo :=
  match createWebRtcTransport mediaP3 "r" "u" "send" with
  | .ok (info, _) => info
  | .error _ => { id := "" }

def c3prod : Producer :=
  match produceS false false app3 "s1" "u" "t1" "video" with
  | .ok (p, _) => p
  | .error _ => prodA

/-- The components of the orchestrator state that live operations read and
mutate: cache, media, stats, pending deletions, id counter and clock. The
event-bus messages, persistence writes and logs are excluded — those are the
collaborators' sinks. -/
def coreView (s : AppState) :
    List (String × CacheStream) × MediaState × List (String × StreamStats)
      × List String × Nat × Nat :=
  (s.cache, s.media, s.stats, s.pendingDeletes, s.nextStreamId, s.now)

/-- Two operation outcomes agree: the same failure, or the same returned
value together with the same core state. -/
def resEquiv {α : Type} :
    Except String (α × AppState) → Except String (α × AppState) → Prop
  | .error e, .error f => e = f
  | .ok (a, s), .ok (b, t) => a = b ∧ coreView s = coreView t
  | _, _ => False

end ILS

namespace ILS

/-! ## Theorems -/

/-- C1 counterexample: `createRoom` on a fresh service completes successfully
and leaves a room with an empty participant map registered in the room
registry, so a zero-participant room does persist after an operation
completes. -/
theorem createRoom_registers_empty_room :
    (createRoomM mediaP3 "r1").isOk = true
    ∧ (mget c1State.rooms "r1").map (·.participants) = some [] := by
  decide

/-- C1 (amended): the zero-participant invariant holds for participant
removal — whenever `closeParticipant` removes an existing participant from
an existing room, any room still registered under that id afterwards has a
non-empty participant map (the emptied room is deregistered and its router
closed); rooms freshly created by `createRoom` may persist with zero
participants. -/
theorem closeParticipant_no_empty_room (s : MediaState) (r u : String)
    (room room2 : Room)
    (hroom : mget s.rooms r = some room)
    (hu : (mget room.participants u).isSome = true)
    (h2 : mget (closeParticipantM s r u).rooms r = some room2) :
    room2.participants ≠ [] := by
  obtain ⟨p, hp⟩ := Option.isSome_iff_exists.mp hu
  simp only [closeParticipantM, hroom, hp] at h2
  by_cases hlen : (cascadeRemove room p u).length = 0
  · rw [if_pos hlen] at h2
    rw [mget_mdel_self] at h2
    exact Option.noConfusion h2
  · rw [if_neg hlen] at h2
    rw [mget_mset_self] at h2
    cases h2
    show cascadeRemove room p u ≠ []
    intro hnil
    exact hlen (by rw [hnil]; rfl)

/-- C1 witness: in `mediaAB` participant `a` leaves room `r`; the room
remains with participant `b`, non-empty. -/
theorem closeParticipant_no_empty_room_witness :
    mget mediaAB.rooms "r" = some roomAB
    ∧ (mget roomAB.participants "a").isSome = true
    ∧ mget (closeParticipantM mediaAB "r" "a").rooms "r" = some c1wRoom2
    ∧ c1wRoom2.participants ≠ [] :=
  ⟨by decide, by decide, by decide,
   closeParticipant_no_empty_room mediaAB "r" "a" roomAB c1wRoom2
     (by decide) (by decide) (by decide)⟩

/-- C2 counterexample: with stream `s1` live in the cache, a first
`endStream` succeeds, and a second `endStream` issued before the scheduled
grace-window cache deletion runs succeeds as well — a silent success, not a
not-found failure. -/
theorem endStream_twice_within_grace_succeeds :
    (endStreamS false false c2App "s1" "u").isOk = true
    ∧ (endStreamS false false c2App1 "s1" "u").isOk = true := by
  decide

/-- C2 (amended): a second `endStream` fails with `"Stream not found"` only
once the scheduled grace-window deletion of the cache record has executed;
after `deleteStream` runs, `endStream` for that id always fails with
`"Stream not found"`. -/
theorem endStream_after_delete_not_found (db bus : Bool) (s : AppState)
    (streamId userId : String) :
    endStreamS db bus (fireScheduledDelete s streamId) streamId userId
      = .error "Stream not found" := by
  have h : mget (fireScheduledDelete s streamId).cache streamId = none := by
    simp [fireScheduledDelete, cacheDeleteStream, mget_mdel_self]
  simp [endStreamS, h]

/-- C8: `createRoom` is idempotent — a successful call immediately repeated
returns the same room and the same state; when the room already existed the
call changes nothing (no worker consumed, no routing context created), and
when it did not, exactly one routing context is created. -/
theorem createRoom_idempotent (s : MediaState) (r : String) (room2 : Room)
    (s1 : MediaState) (hok : createRoomM s r = .ok (room2, s1)) :
    createRoomM s1 r = .ok (room2, s1)
    ∧ (∀ room, mget s.rooms r = some room → room2 = room ∧ s1 = s)
    ∧ (mget s.rooms r = none →
        s1.routersCreated = s.routersCreated + 1) := by
  cases hroom : mget s.rooms r with
  | some room =>
      have hpair : room = room2 ∧ s = s1 := by
        simpa [createRoomM, hroom] using hok
      refine ⟨?_, ?_, ?_⟩
      · rw [← hpair.2, ← hpair.1]
        simp [createRoomM, hroom]
      · intro rm hrm
        exact ⟨hpair.1.symm.trans (Option.some.inj hrm), hpair.2.symm⟩
      · intro h
        exact Option.noConfusion h
  | none =>
      cases hw : getNextWorker s with
      | none => simp [createRoomM, hroom, hw] at hok
      | some ws =>
          obtain ⟨w, sW⟩ := ws
          simp only [createRoomM, hroom, hw, Except.ok.injEq, Prod.mk.injEq]
            at hok
          obtain ⟨hr2, hs1⟩ := hok
          refine ⟨?_, ?_, ?_⟩
          · have hself : mget s1.rooms r = some room2 := by
              rw [← hs1, ← hr2]
              exact mget_mset_self _ _ _
            simp [createRoomM, hself]
          · intro rm hrm
            exact Option.noConfusion hrm
          · intro _
            have hrc : sW.routersCreated = s.routersCreated := by
              simp only [getNextWorker] at hw
              cases hg : s.workers[s.workerIndex]? with
              | none => rw [hg] at hw; exact Option.noConfusion hw
              | some w2 =>
                  rw [hg] at hw
                  cases hw
                  rfl
            rw [← hs1]
            simpa using hrc

/-- C10: `closeParticipant` is total and idempotent — a missing room or a
missing participant leaves the state unchanged (the function returns
normally rather than failing), and running it twice for the same room and
user equals running it once. -/
theorem closeParticipant_total_idempotent (s : MediaState) (r u : String) :
    (mget s.rooms r = none → closeParticipantM s r u = s)
    ∧ (∀ room, mget s.rooms r = some room → mget room.participants u = none →
        closeParticipantM s r u = s)
    ∧ closeParticipantM (closeParticipantM s r u) r u
        = closeParticipantM s r u := by
  refine ⟨fun h => by simp [closeParticipantM, h],
          fun room h hu => by simp [closeParticipantM, h, hu], ?_⟩
  cases hroom : mget s.rooms r with
  | none => simp [closeParticipantM, hroom]
  | some room =>
      cases hp : mget room.participants u with
      | none => simp [closeParticipantM, hroom, hp]
      | some p =>
          by_cases hlen : (cascadeRemove room p u).length = 0
          · have h1 : closeParticipantM s r u =
                { s with rooms := mdel s.rooms r,
                         closedRouters := s.closedRouters ++ [room.routerId] } := by
              simp [closeParticipantM, hroom, hp, hlen]
            rw [h1]
            have h2 : mget (mdel s.rooms r) r = none := mget_mdel_self _ _
            simp [closeParticipantM, h2]
          · have h1 : closeParticipantM s r u = { s with rooms := mset s.rooms r ({ room with participants := cascadeRemove room p u }) } := by
              simp [closeParticipantM, hroom, hp, hlen]
            rw [h1]
            have h2 : mget (mset s.rooms r ({ room with participants := cascadeRemove room p u })) r = some ({ room with participants := cascadeRemove room p u }) :=
              mget_mset_self _ _ _
            have h3 : mget (cascadeRemove room p u) u = none :=
              mget_mdel_self _ _
            simp [closeParticipantM, h2, h3]

/-- C10 witness: on `mediaP3` (no rooms) the call is a no-op, and on
`mediaAB` the call replayed equals the call once. -/
theorem closeParticipant_total_idempotent_witness :
    (mget mediaP3.rooms "r" = none ∧ closeParticipantM mediaP3 "r" "u" = mediaP3)
    ∧ closeParticipantM (closeParticipantM mediaAB "r" "a") "r" "a"
        = closeParticipantM mediaAB "r" "a" :=
  ⟨⟨by decide, (closeParticipant_total_idempotent mediaP3 "r" "u").1 (by decide)⟩,
   (closeParticipant_total_idempotent mediaAB "r" "a").2.2⟩

end ILS

namespace ILS

/-- Lookup through a key-preserving value map over an association list. -/
theorem mget_map2 {α β : Type} (g : String × α → β)
    (m : List (String × α)) (k : String) :
    mget (m.map (fun kv => (kv.1, g kv))) k
      = (mget m k).map (fun v => g (k, v)) := by
  induction m with
  | nil => rfl
  | cons hd tl ih =>
      obtain ⟨k1, v1⟩ := hd
      by_cases h : k1 = k
      · subst h
        simp [mget]
      · simp [mget, h, ih]

/-- Replacing a participant with one holding the same producer map does not
change the room-wide producer scan. -/
theorem findProducer_mset (parts : List (String × Participant)) (u : String)
    (p p1 : Participant) (pid : String)
    (hu : mget parts u = some p) (hsame : p1.producers = p.producers) :
    findProducer (mset parts u p1) pid = findProducer parts pid := by
  induction parts with
  | nil => simp [mget] at hu
  | cons hd tl ih =>
      obtain ⟨k1, q⟩ := hd
      by_cases hk : k1 = u
      · subst hk
        rw [mget_cons, if_pos rfl] at hu
        have hq : q = p := by simpa using hu
        subst hq
        simp only [mset, if_pos rfl]
        simp [findProducer, hsame]
      · rw [mget_cons, if_neg hk] at hu
        simp only [mset, if_neg hk]
        cases hpq : mget q.producers pid with
        | some producer => simp [findProducer, hpq]
        | none => simp [findProducer, hpq, ih hu]

/-- Adding (or replacing by) a recv transport when the participant had no
recv transport makes the recv scan find exactly the new transport. -/
theorem findRecv_mset (ts : List (String × Transport)) (k : String)
    (t : Transport)
    (hnone : findRecvTransport ts = none) (hdir : t.direction = "recv") :
    findRecvTransport (mset ts k t) = some t := by
  induction ts with
  | nil => simp [mset, findRecvTransport, hdir]
  | cons hd1 tl ih =>
      obtain ⟨k1, t1⟩ := hd1
      simp only [findRecvTransport] at hnone
      by_cases hd1r : t1.direction = "recv"
      · rw [if_pos hd1r] at hnone
        exact Option.noConfusion hnone
      · rw [if_neg hd1r] at hnone
        by_cases hk : k1 = k
        · simp [mset, hk, findRecvTransport, hdir]
        · simp [mset, hk, findRecvTransport, hd1r, ih hnone]

/-- C3 counterexample: with room and cached stream `s1` set up, two
successive successful `produce` calls publish the `started` stream event
twice — the stream-started lifecycle event is emitted on every produce, not
exactly once. -/
theorem produce_emits_started_every_time :
    (produceS false false app3 "s1" "u" "t1" "video").isOk = true
    ∧ (produceS false false c3App1 "s1" "u" "t1" "video").isOk = true
    ∧ (c3App2.events.filter (fun e => e.1 = "started")).length = 2 := by
  decide

/-- C3 (amended): the cached Stream record's live transition is guarded and
so happens at most once — a successful `produce` on a cached stream that is
not yet live sets `isLive` and records the start timestamp, and a
successful `produce` on an already-live stream leaves the cached record
unchanged; but the `started` event and the database update are repeated on
every successful produce. -/
theorem produce_live_transition (db bus : Bool) (s : AppState)
    (roomId userId tid kind : String) (p : Producer) (s2 : AppState)
    (st : CacheStream)
    (hst : mget s.cache roomId = some st)
    (hok : produceS db bus s roomId userId tid kind = .ok (p, s2)) :
    (st.isLive = true → mget s2.cache roomId = some st)
    ∧ (st.isLive = false →
        mget s2.cache roomId
          = some ({ st with isLive := true, startedAt := some s.now })) := by
  cases hm : produceM s.media roomId userId tid kind with
  | error e => simp [produceS, hm] at hok
  | ok pm =>
      obtain ⟨prod, m1⟩ := pm
      cases hlive : st.isLive with
      | true =>
          refine ⟨fun _ => ?_, fun hfalse => Bool.noConfusion hfalse⟩
          simp only [produceS, hm, cacheGetStream, hst, hlive, Bool.not_true,
            Bool.false_eq_true, if_false, Except.ok.injEq, Prod.mk.injEq,
            dbTry, publishStreamEvent, publishAnalyticsEvent] at hok
          obtain ⟨-, hs2⟩ := hok
          rw [← hs2]
          cases db <;> cases bus <;> simp [hst]
      | false =>
          refine ⟨fun htrue => Bool.noConfusion htrue, fun _ => ?_⟩
          simp only [produceS, hm, cacheGetStream, hst, hlive, Bool.not_false,
            if_true, Except.ok.injEq, Prod.mk.injEq, dbTry,
            publishStreamEvent, publishAnalyticsEvent, cacheUpdateStream]
            at hok
          obtain ⟨-, hs2⟩ := hok
          rw [← hs2]
          cases db <;> cases bus <;> simp [hst, mget_mset_self]

/-- C3 witness: on `app3` the first produce flips the cached record of `s1`
to live with start timestamp 100. -/
theorem produce_live_transition_witness :
    mget app3.cache "s1" = some streamRec
    ∧ produceS false false app3 "s1" "u" "t1" "video" = .ok (c3prod, c3App1)
    ∧ streamRec.isLive = false
    ∧ mget c3App1.cache "s1"
        = some ({ streamRec with isLive := true, startedAt := some app3.now }) :=
  ⟨by decide, by decide, by decide,
   (produce_live_transition false false app3 "s1" "u" "t1" "video" c3prod
      c3App1 streamRec (by decide) (by decide)).2 (by decide)⟩

/-- C4 counterexample: two `createWebRtcTransport` calls for the same user
with direction `send` both succeed and leave the participant holding two
send-direction transports — the at-most-one bound is not enforced. -/
theorem createTransport_allows_two_send :
    (createWebRtcTransport mediaP3 "r" "u" "send").isOk = true
    ∧ (createWebRtcTransport c4s1 "r" "u" "send").isOk = true
    ∧ (c4Part.transports.filter
        (fun kv => kv.2.direction = "send")).length = 2 := by
  decide

/-- C4 (amended): a successful `createWebRtcTransport(roomId, userId, d)`
registers under the participant a transport whose direction is `d`, fixed at
creation (the direction of a transport is never mutated afterwards); no
bound on the number of transports per direction is enforced. -/
theorem createTransport_registers_direction (s : MediaState)
    (r u d : String) (info : TransportInfo) (s2 : MediaState)
    (hok : createWebRtcTransport s r u d = .ok (info, s2)) :
    ∃ room2 p2 t, mget s2.rooms r = some room2
      ∧ mget room2.participants u = some p2
      ∧ mget p2.transports info.id = some t
      ∧ t.direction = d := by
  cases hc : createRoomM s r with
  | error e => simp [createWebRtcTransport, hc] at hok
  | ok rs =>
      obtain ⟨room, s1⟩ := rs
      simp only [createWebRtcTransport, hc, Except.ok.injEq, Prod.mk.injEq]
        at hok
      obtain ⟨hinfo, hs2⟩ := hok
      subst hs2
      subst hinfo
      exact ⟨_, _, _, mget_mset_self _ _ _, mget_mset_self _ _ _,
        mget_mset_self _ _ _, rfl⟩

/-- C4 witness: the first send-transport creation on the fresh service. -/
theorem createTransport_registers_direction_witness :
    createWebRtcTransport mediaP3 "r" "u" "send" = .ok (c4info1, c4s1)
    ∧ (∃ room2 p2 t, mget c4s1.rooms "r" = some room2
        ∧ mget room2.participants "u" = some p2
        ∧ mget p2.transports c4info1.id = some t
        ∧ t.direction = "send") :=
  ⟨by decide,
   createTransport_registers_direction mediaP3 "r" "u" "send" c4info1 c4s1
     (by decide)⟩

end ILS

namespace ILS

/-- C5: closing a transport or a producer cascades to consumers — after
`transport.close()` no consumer carried by that transport remains in any
participant's consumer map of the room, and after `producer.close()` no
consumer sourced from that producer remains; the removal is unconditional
(the handlers are registered at `consume` time). -/
theorem consumer_cascade (s : MediaState) (r tclosed pclosed q cid : String) :
    (∀ room2 p2 c, mget (closeTransportM s r tclosed).rooms r = some room2 →
        mget room2.participants q = some p2 →
        mget p2.consumers cid = some c → c.transportId ≠ tclosed)
    ∧ (∀ room2 p2 c, mget (closeProducerM s r pclosed).rooms r = some room2 →
        mget room2.participants q = some p2 →
        mget p2.consumers cid = some c → c.producerId ≠ pclosed) := by
  constructor
  · intro room2 p2 c h1 h2 h3
    cases hroom : mget s.rooms r with
    | none => simp [closeTransportM, hroom] at h1
    | some room =>
        simp only [closeTransportM, hroom] at h1
        rw [mget_mset_self] at h1
        cases h1
        rw [mget_map2] at h2
        cases hq : mget room.participants q with
        | none =>
            rw [hq] at h2
            exact Option.noConfusion h2
        | some q0 =>
            rw [hq] at h2
            rw [Option.map_some'] at h2
            cases h2
            simp only [cascadeParticipant] at h3
            have hpred := mget_filter _ _ _ _ h3
            intro hEq
            rw [hEq] at hpred
            simp at hpred
  · intro room2 p2 c h1 h2 h3
    cases hroom : mget s.rooms r with
    | none => simp [closeProducerM, hroom] at h1
    | some room =>
        simp only [closeProducerM, hroom] at h1
        rw [mget_mset_self] at h1
        cases h1
        rw [mget_map2] at h2
        cases hq : mget room.participants q with
        | none =>
            rw [hq] at h2
            exact Option.noConfusion h2
        | some q0 =>
            rw [hq] at h2
            rw [Option.map_some'] at h2
            cases h2
            have hpred := mget_filter _ _ _ _ h3
            intro hEq
            rw [hEq] at hpred
            simp at hpred

/-- C5 witness: in `media5`, closing transport `t1` removes consumer `c0`
(carried by `t1`) while `c1` survives, and closing producer `p0` removes the
consumer sourced from it while `c1` survives. -/
theorem consumer_cascade_witness :
    mget (closeTransportM media5 "r" "t1").rooms "r" = some c5room2
    ∧ mget c5room2.participants "u" = some c5p2
    ∧ mget c5p2.consumers "c1" = some c5cons
    ∧ c5cons.transportId ≠ "t1"
    ∧ mget (closeProducerM media5 "r" "p0").rooms "r" = some c5room2p
    ∧ mget c5room2p.participants "u" = some c5p2p
    ∧ mget c5p2p.consumers "c1" = some c5consp
    ∧ c5consp.producerId ≠ "p0" :=
  ⟨by decide, by decide, by decide,
   (consumer_cascade media5 "r" "t1" "p0" "u" "c1").1 c5room2 c5p2 c5cons
     (by decide) (by decide) (by decide),
   by decide, by decide, by decide,
   (consumer_cascade media5 "r" "t1" "p0" "u" "c1").2 c5room2p c5p2p c5consp
     (by decide) (by decide) (by decide)⟩

/-- When room, participant, producer and a recv transport are all found,
`consume` succeeds. -/
theorem consumeM_ok (s : MediaState) (r u pid : String) (room : Room)
    (p : Participant) (producer : Producer) (t : Transport)
    (hroom : mget s.rooms r = some room)
    (hpart : mget room.participants u = some p)
    (hprod : findProducer room.participants pid = some producer)
    (hrecv : findRecvTransport p.transports = some t) :
    (consumeM s r u pid true).isOk = true := by
  simp only [consumeM, hroom, hpart, hprod, hrecv]
  rfl

/-- C6: with the room, the consuming participant, an existing producer and
compatible capabilities, `consume` fails with
`"No receive transport found"` while the participant owns no recv-direction
transport, and after `createWebRtcTransport(..., "recv")` for that
participant the same `consume` call succeeds. -/
theorem consume_requires_recv (s : MediaState) (r u pid : String)
    (room : Room) (p : Participant)
    (hroom : mget s.rooms r = some room)
    (hpart : mget room.participants u = some p)
    (hprod : (findProducer room.participants pid).isSome = true)
    (hnorecv : findRecvTransport p.transports = none) :
    consumeM s r u pid true = .error "No receive transport found"
    ∧ (∀ info s2, createWebRtcTransport s r u "recv" = .ok (info, s2) →
        (consumeM s2 r u pid true).isOk = true) := by
  obtain ⟨producer, hpd⟩ := Option.isSome_iff_exists.mp hprod
  constructor
  · simp [consumeM, hroom, hpart, hpd, hnorecv]
  · intro info s2 hok
    have hcr : createRoomM s r = .ok (room, s) := by
      simp [createRoomM, hroom]
    simp only [createWebRtcTransport, hcr, hpart, Except.ok.injEq,
      Prod.mk.injEq] at hok
    obtain ⟨-, hs2⟩ := hok
    rw [← hs2]
    refine consumeM_ok _ _ _ _ _ _ producer
      { id := freshTid s, userId := u, direction := "recv",
        connected := false }
      (mget_mset_self _ _ _) (mget_mset_self _ _ _) ?_ ?_
    · exact (findProducer_mset room.participants u p
        ({ p with transports := mset p.transports (freshTid s) ({ id := freshTid s, userId := u, direction := "recv", connected := false }) })
        pid hpart rfl).trans hpd
    · exact findRecv_mset p.transports _ _ hnorecv rfl

/-- C6 witness: in `media6` viewer `u` has no transport; consuming `p0`
fails with the no-receive-transport error, and after creating a recv
transport the same call succeeds. -/
theorem consume_requires_recv_witness :
    consumeM media6 "r" "u" "p0" true = .error "No receive transport found"
    ∧ createWebRtcTransport media6 "r" "u" "recv" = .ok (c6info, c6s2)
    ∧ (consumeM c6s2 "r" "u" "p0" true).isOk = true :=
  ⟨(consume_requires_recv media6 "r" "u" "p0" room6 partU (by decide)
      (by decide) (by decide) (by decide)).1,
   by decide,
   (consume_requires_recv media6 "r" "u" "p0" room6 partU (by decide)
      (by decide) (by decide) (by decide)).2 c6info c6s2 (by decide)⟩

/-- C8 witness: creating `r1` on the fresh pool, then calling again. -/
theorem createRoom_idempotent_witness :
    createRoomM mediaP3 "r1" = .ok (c8room, c8s1)
    ∧ createRoomM c8s1 "r1" = .ok (c8room, c8s1)
    ∧ c8s1.routersCreated = mediaP3.routersCreated + 1 :=
  ⟨by decide,
   (createRoom_idempotent mediaP3 "r1" c8room c8s1 (by decide)).1,
   (createRoom_idempotent mediaP3 "r1" c8room c8s1 (by decide)).2.2
     (by decide)⟩

end ILS

namespace ILS

/-- C9: a failure of the persistence collaborator or of the event-bus
publish is absorbed at the point of the call (each is wrapped in its own
try/catch that logs and continues) and never changes the outcome of
`createStream`, `produce` or `endStream`: the operation fails or succeeds
identically, returns the same value, and leaves the same core state as when
those collaborator calls succeed. -/
theorem collaborator_failure_immaterial (db bus : Bool) (s : AppState)
    (u sid roomId userId tid kind : String) (d : StreamData) :
    resEquiv (createStreamS db bus s u d) (createStreamS false false s u d)
    ∧ resEquiv (produceS db bus s roomId userId tid kind)
        (produceS false false s roomId userId tid kind)
    ∧ resEquiv (endStreamS db bus s sid userId)
        (endStreamS false false s sid userId) := by
  refine ⟨?_, ?_, ?_⟩
  · simp only [createStreamS]
    cases hc : createRoomM s.media ("s" ++ toString s.nextStreamId) with
    | error e => simp [resEquiv]
    | ok rm =>
        obtain ⟨room, m1⟩ := rm
        cases db <;> cases bus <;>
          simp [resEquiv, coreView, cacheCreateStream, dbTry,
            publishStreamEvent]
  · cases hm : produceM s.media roomId userId tid kind with
    | error e => simp [produceS, hm, resEquiv]
    | ok pm =>
        obtain ⟨prod, m1⟩ := pm
        simp only [produceS, hm, cacheGetStream]
        cases hg : mget s.cache roomId with
        | none =>
            cases db <;> cases bus <;>
              simp [resEquiv, coreView, dbTry, publishStreamEvent,
                publishAnalyticsEvent]
        | some st =>
            cases hlive : st.isLive <;> cases db <;> cases bus <;>
              simp [resEquiv, coreView, cacheUpdateStream, dbTry,
                publishStreamEvent, publishAnalyticsEvent, hg]
  · simp only [endStreamS]
    cases hg : mget s.cache sid with
    | none => simp [resEquiv]
    | some st =>
        cases db <;> cases bus <;>
          simp [resEquiv, coreView, cacheUpdateStream, dbTry,
            publishStreamEvent, publishAnalyticsEvent, getStreamStats, hg]

end ILS

namespace ILS

/-- On a duplicate-free worker array, JS `indexOf` of the element at
position `i` is `i`. -/
theorem idxOf_get (xs : List Nat) : ∀ (i w : Nat), xs.Nodup →
    xs[i]? = some w → idxOf w xs = (i : Int) := by
  induction xs with
  | nil => intro i w _ h; simp at h
  | cons x tl ih =>
      intro i w hnd h
      cases i with
      | zero =>
          rw [List.getElem?_cons_zero] at h
          cases h
          simp [idxOf]
      | succ j =>
          rw [List.getElem?_cons_succ] at h
          have hnd2 := List.nodup_cons.mp hnd
          have hx : ¬x = w := fun hxw => hnd2.1 (hxw ▸ List.getElem?_mem h)
          have hrec := ih j w hnd2.2 h
          simp only [idxOf, hx, if_false]
          rw [hrec]
          have hne : (j : Int) ≠ -1 := by omega
          rw [if_neg hne]
          omega

/-- A successful `createRoom` leaves every other room's registry entry
untouched. -/
theorem createRoomM_mget_ne (s : MediaState) (i r : String) (room : Room)
    (s1 : MediaState) (hok : createRoomM s i = .ok (room, s1))
    (hne : i ≠ r) : mget s1.rooms r = mget s.rooms r := by
  cases hi : mget s.rooms i with
  | some rm =>
      have hpair : rm = room ∧ s = s1 := by
        simpa [createRoomM, hi] using hok
      rw [← hpair.2]
  | none =>
      cases hw : getNextWorker s with
      | none => simp [createRoomM, hi, hw] at hok
      | some ws =>
          obtain ⟨w, sW⟩ := ws
          simp only [createRoomM, hi, hw, Except.ok.injEq, Prod.mk.injEq]
            at hok
          obtain ⟨-, hs1⟩ := hok
          rw [← hs1]
          have hsw : sW.rooms = s.rooms := by
            simp only [getNextWorker] at hw
            cases hg : s.workers[s.workerIndex]? with
            | none => rw [hg] at hw; exact Option.noConfusion hw
            | some w2 => rw [hg] at hw; cases hw; rfl
          show mget (mset sW.rooms i _) r = mget s.rooms r
          rw [mget_mset_ne _ _ _ _ hne, hsw]

/-- A successful `createRoom` leaves the requested room registered with the
returned value. -/
theorem createRoomM_mget_self (s : MediaState) (i : String) (room : Room)
    (s1 : MediaState) (hok : createRoomM s i = .ok (room, s1)) :
    mget s1.rooms i = some room := by
  cases hi : mget s.rooms i with
  | some rm =>
      have hpair : rm = room ∧ s = s1 := by
        simpa [createRoomM, hi] using hok
      rw [← hpair.2, hi, hpair.1]
  | none =>
      cases hw : getNextWorker s with
      | none => simp [createRoomM, hi, hw] at hok
      | some ws =>
          obtain ⟨w, sW⟩ := ws
          simp only [createRoomM, hi, hw, Except.ok.injEq, Prod.mk.injEq]
            at hok
          obtain ⟨hroom, hs1⟩ := hok
          rw [← hs1, ← hroom]
          exact mget_mset_self _ _ _

/-- Creating a batch of rooms whose ids all differ from `r` does not change
`r`'s registry entry. -/
theorem createRooms_preserves (ids : List String) :
    ∀ (s : MediaState) (r : String), (∀ x ∈ ids, x ≠ r) →
      mget (createRooms s ids).rooms r = mget s.rooms r := by
  induction ids with
  | nil => intro s r _; rfl
  | cons i rest ih =>
      intro s r h
      simp only [createRooms]
      cases hc : createRoomM s i with
      | error e => exact ih s r (fun x hx => h x (List.mem_cons_of_mem _ hx))
      | ok rm =>
          obtain ⟨room, s1⟩ := rm
          rw [ih s1 r (fun x hx => h x (List.mem_cons_of_mem _ hx))]
          exact createRoomM_mget_ne s i r room s1 hc
            (h i (List.mem_cons_self _ _))

/-- Unfolding a fresh-room `createRoom`: the worker at the cursor is used,
its `indexOf` is recorded on the room, and the cursor advances modulo the
pool size. -/
theorem createRoomM_new (s : MediaState) (i : String) (room : Room)
    (s1 : MediaState) (hnone : mget s.rooms i = none)
    (hok : createRoomM s i = .ok (room, s1)) :
    ∃ w, s.workers[s.workerIndex]? = some w
      ∧ room.workerIndex = idxOf w s.workers
      ∧ s1.workers = s.workers
      ∧ s1.workerIndex = (s.workerIndex + 1) % s.workers.length
      ∧ s1.rooms = mset s.rooms i room := by
  cases hg : s.workers[s.workerIndex]? with
  | none => simp [createRoomM, hnone, getNextWorker, hg] at hok
  | some w =>
      simp only [createRoomM, hnone, getNextWorker, hg, Except.ok.injEq,
        Prod.mk.injEq] at hok
      obtain ⟨hroom, hs1⟩ := hok
      refine ⟨w, rfl, ?_, ?_, ?_, ?_⟩
      · rw [← hroom]
      · rw [← hs1]
      · rw [← hs1]
      · rw [← hs1, ← hroom]

/-- Round-robin assignment, generalized over the starting cursor: creating
a batch of fresh, pairwise-distinct rooms over the pool `List.range N`
assigns the `k`-th room the worker index `(workerIndex + k) % N`. -/
theorem createRooms_assign (N : Nat) (hN : 0 < N) (ids : List String) :
    ∀ (s : MediaState), s.workers = List.range N → s.workerIndex < N →
      ids.Nodup → (∀ x ∈ ids, mget s.rooms x = none) →
      ∀ (k : Nat) (hk : k < ids.length),
        roomWorker (createRooms s ids) (ids.get ⟨k, hk⟩)
          = some (((s.workerIndex + k) % N : Nat) : Int) := by
  induction ids with
  | nil =>
      intro s _ _ _ _ k hk
      exact absurd hk (by simp)
  | cons i rest ih =>
      intro s hw hjN hnd hfresh k hk
      have hid : mget s.rooms i = none := hfresh i (List.mem_cons_self _ _)
      have hg : s.workers[s.workerIndex]? = some s.workerIndex := by
        rw [hw]
        exact List.getElem?_range hjN
      obtain ⟨room, s1, hok⟩ :
          ∃ room s1, createRoomM s i = .ok (room, s1) := by
        simp only [createRoomM, hid, getNextWorker, hg]
        exact ⟨_, _, rfl⟩
      obtain ⟨w, hgw, hwi, hws, hcur, hrooms⟩ := createRoomM_new s i room s1
        hid hok
      have hwj : w = s.workerIndex := Option.some.inj (hgw.symm.trans hg)
      have hnd2 := List.nodup_cons.mp hnd
      simp only [createRooms, hok]
      cases k with
      | zero =>
          have hpres : mget (createRooms s1 rest).rooms i
              = mget s1.rooms i :=
            createRooms_preserves rest s1 i
              (fun x hx hxi => hnd2.1 (by rw [← hxi]; exact hx))
          show roomWorker (createRooms s1 rest) i = _
          simp only [roomWorker]
          rw [hpres, createRoomM_mget_self s i room s1 hok,
            Option.map_some', hwi, hw]
          rw [idxOf_get (List.range N) s.workerIndex w (List.nodup_range N)
            (by rw [← hw, hwj]; exact hg)]
          rw [Nat.add_zero, Nat.mod_eq_of_lt hjN]
      | succ k2 =>
          have hk2 : k2 < rest.length := by
            simpa [Nat.succ_lt_succ_iff] using hk
          have hfresh2 : ∀ x ∈ rest, mget s1.rooms x = none := by
            intro x hx
            rw [hrooms,
              mget_mset_ne _ _ _ _
                (fun hxi => hnd2.1 (by rw [hxi]; exact hx))]
            exact hfresh x (List.mem_cons_of_mem _ hx)
          have hcurN : s1.workerIndex = (s.workerIndex + 1) % N := by
            rw [hcur, hw, List.length_range]
          have hlt : s1.workerIndex < N := by
            rw [hcurN]
            exact Nat.mod_lt _ hN
          have hrec := ih s1 (hws.trans hw) hlt hnd2.2 hfresh2 k2 hk2
          show roomWorker (createRooms s1 rest) (rest.get ⟨k2, hk2⟩) = _
          rw [hrec, hcurN]
          have harith : ((s.workerIndex + 1) % N + k2) % N
              = (s.workerIndex + (k2 + 1)) % N := by
            rw [Nat.mod_add_mod]
            congr 1
            omega
          rw [harith]

/-- C7: worker assignment is round-robin by index — starting from a fresh
cursor over a pool of `N` workers (ids `0..N-1`), the `k`-th room created
(counting from 0, all ids fresh and distinct) is assigned the worker at
index `k % N`; with pool size 3, four rooms get workers `[0, 1, 2, 0]`. -/
theorem worker_round_robin (N : Nat) (s : MediaState) (ids : List String)
    (hN : 0 < N) (hw : s.workers = List.range N) (hj : s.workerIndex = 0)
    (hnd : ids.Nodup) (hfresh : ∀ x ∈ ids, mget s.rooms x = none)
    (k : Nat) (hk : k < ids.length) :
    roomWorker (createRooms s ids) (ids.get ⟨k, hk⟩)
      = some ((k % N : Nat) : Int) := by
  have hlt : s.workerIndex < N := by
    rw [hj]
    exact hN
  have h := createRooms_assign N hN ids s hw hlt hnd hfresh k hk
  rw [hj, Nat.zero_add] at h
  exact h

/-- C7 witness: pool of size 3, four rooms created, workers `[0,1,2,0]`. -/
theorem worker_round_robin_witness :
    (0 : Nat) < 3 ∧ mediaP3.workers = List.range 3
    ∧ mediaP3.workerIndex = 0
    ∧ (["r1", "r2", "r3", "r4"] : List String).Nodup
    ∧ roomWorker (createRooms mediaP3 ["r1", "r2", "r3", "r4"]) "r1" = some 0
    ∧ roomWorker (createRooms mediaP3 ["r1", "r2", "r3", "r4"]) "r2" = some 1
    ∧ roomWorker (createRooms mediaP3 ["r1", "r2", "r3", "r4"]) "r3" = some 2
    ∧ roomWorker (createRooms mediaP3 ["r1", "r2", "r3", "r4"]) "r4"
        = some 0 :=
  ⟨by decide, by decide, by decide, by decide,
   worker_round_robin 3 mediaP3 ["r1", "r2", "r3", "r4"] (by decide)
     (by decide) (by decide) (by decide) (fun x _ => rfl) 0 (by decide),
   worker_round_robin 3 mediaP3 ["r1", "r2", "r3", "r4"] (by decide)
     (by decide) (by decide) (by decide) (fun x _ => rfl) 1 (by decide),
   worker_round_robin 3 mediaP3 ["r1", "r2", "r3", "r4"] (by decide)
     (by decide) (by decide) (by decide) (fun x _ => rfl) 2 (by decide),
   worker_round_robin 3 mediaP3 ["r1", "r2", "r3", "r4"] (by decide)
     (by decide) (by decide) (by decide) (fun x _ => rfl) 3 (by decide)⟩

end ILS
